import Mathlib

/-!
# Verification of the pyAPL contour-comparison core

Shallow embedding of the geometric core of the pyAPL repository:
bit-packed Dice (`calculate_dice.py`, `calculate_dice_logical.py`),
the surface-DSC tolerance loop (`calculate_surface_dsc.py`),
the added-path-length per-slice counts (`calculate_path_length.py`,
`calculate_different_path_length_v2.py`), the contour rasterizer
(`resample_contour_slices.py`) and the structure bitmask composer
(`compose_struct_matrix.py`).

Conventions of the embedding:
* numpy float arithmetic is modelled over `ℚ` (exact rationals);
  the one irrational float constant, `np.sqrt(2)`, is modelled by its
  exact IEEE-754 double value, which is rational;
* numpy arrays are modelled as functions from index tuples, volumes of
  bit-packed integers as `ℕ`-valued functions, boolean masks as
  `Bool`-valued functions over an explicit finite grid;
* a numpy expression whose value is IEEE `nan` (0/0 division) is
  modelled as `Option.none`;
* the resample volumes are float64 (`np.zeros` default) on every
  return path; numpy's bitwise `~` and `&` raise `TypeError` on float
  arrays, so the metric functions applying them to these volumes are
  modelled over dtype-tagged volumes with `Except`-valued bitwise
  operations, keeping that error path;
* `scipy.ndimage.distance_transform_edt(~mask, sampling=spacing)`
  thresholded at a tolerance `t` is modelled by the predicate
  "some `true` voxel of the mask lies at anisotropic Euclidean
  distance ≤ t", compared via squared distances to stay in `ℚ`.
-/

namespace PyAPL

/-! ## Bit-plane extraction and Dice (`calculate_dice.py`, `calculate_dice_logical.py`)

A bit-packed volume is flattened to a `List ℕ` of voxel values; the
structure number is 1-indexed exactly as in the Python source
(`(voi >> (struct_num - 1)) & 1`). -/

/-- `((v >> (s-1)) & 1) == 1`: bit-plane extraction for 1-indexed
structure number `s`, as in both Dice implementations. -/
def bitOf (v : ℕ) (s : ℕ) : Bool :=
  (v >>> (s - 1)) &&& 1 == 1

/-- Boolean mask of structure `s` extracted from a flattened bit-packed
volume `voi` (`voi_struct = ((voi >> (s-1)) & 1).astype(bool)`). -/
def structMask (voi : List ℕ) (s : ℕ) : List Bool :=
  voi.map (fun v => bitOf v s)

/-- `np.sum` of a boolean mask. -/
def maskSum (m : List Bool) : ℕ :=
  (m.filter (fun b => b)).length

/-- Elementwise `&` of two boolean masks (`voi1_struct & voi2_struct`). -/
def maskAnd (m1 m2 : List Bool) : List Bool :=
  List.zipWith (fun a b => a && b) m1 m2

/-- `calculate_dice` from `calculate_dice.py`: extracts both bit-planes
and divides `2·|A∩B|` by `|A|+|B|` unconditionally.  The `0/0` case
produces an IEEE `nan` in numpy, modelled here as `none`. -/
def calculate_dice (voi1 voi2 : List ℕ) (s1 s2 : ℕ) : Option ℚ :=
  let m1 := structMask voi1 s1
  let m2 := structMask voi2 s2
  let overlap := maskSum (maskAnd m1 m2)
  let denom := maskSum m1 + maskSum m2
  if denom = 0 then none
  else some ((2 * (overlap : ℚ)) / (denom : ℚ))

/-- `calculate_dice_logical` from `calculate_dice_logical.py`: same
computation but with an explicit guard returning `1.0` when
`|A|+|B| = 0`. -/
def calculate_dice_logical (voi1 voi2 : List ℕ) (s1 s2 : ℕ) : ℚ :=
  let m1 := structMask voi1 s1
  let m2 := structMask voi2 s2
  let overlap := maskSum (maskAnd m1 m2)
  let denom := maskSum m1 + maskSum m2
  if denom = 0 then 1
  else (2 * (overlap : ℚ)) / (denom : ℚ)

/-! ## Grid, masks and the thresholded distance transform

The metric functions operate on 3-D boolean arrays indexed `(x, y, z)`
with per-axis physical spacing.  A mask is a `Bool`-valued function on
index triples together with explicit grid dimensions. -/

/-- Voxel index triple `(x, y, z)`. -/
abbrev Vox : Type := ℕ × ℕ × ℕ

/-- Grid dimensions `(PixelNumXi, PixelNumYi, PixelNumZi)`. -/
structure Grid where
  nx : ℕ
  ny : ℕ
  nz : ℕ
deriving DecidableEq

/-- Per-axis physical spacing `(PixelSpacingXi, PixelSpacingYi, PixelSpacingZi)`. -/
structure Spacing where
  sx : ℚ
  sy : ℚ
  sz : ℚ
deriving DecidableEq

/-- Enumeration of all voxels of the grid, row-major. -/
def gridVox (g : Grid) : List Vox :=
  (List.range g.nx).flatMap (fun x =>
    (List.range g.ny).flatMap (fun y =>
      (List.range g.nz).map (fun z => (x, y, z))))

/-- Number of `true` voxels of a mask over the grid (`np.sum(mask)`). -/
def maskCount (g : Grid) (m : Vox → Bool) : ℕ :=
  (gridVox g).countP (fun v => m v)

/-- Squared anisotropic Euclidean distance between two voxels, in
physical units: each index difference is scaled by its axis spacing
before squaring, exactly the metric `distance_transform_edt` uses with
`sampling=[sz, sy, sx]` on the transposed array. -/
def distSq (sp : Spacing) (v w : Vox) : ℚ :=
  ((v.1 : ℚ) - (w.1 : ℚ)) ^ 2 * sp.sx ^ 2 +
    ((v.2.1 : ℚ) - (w.2.1 : ℚ)) ^ 2 * sp.sy ^ 2 +
    ((v.2.2 : ℚ) - (w.2.2 : ℚ)) ^ 2 * sp.sz ^ 2

/-- `distance_transform_edt(~mask, sampling) <= t` at voxel `v`: the
anisotropic Euclidean distance from `v` to the nearest `true` voxel of
`mask` is at most `t`.  Equivalently (avoiding the irrational square
root): `t` is non-negative and some `true` voxel lies at squared
distance ≤ `t²`.  For an empty mask the distance is infinite and the
predicate is `false`. -/
def withinTol (g : Grid) (sp : Spacing) (m : Vox → Bool) (v : Vox) (t : ℚ) : Bool :=
  decide (0 ≤ t) &&
    (gridVox g).any (fun w => m w && decide (distSq sp v w ≤ t ^ 2))

/-! ## Typed numpy arrays and the surface DSC function
(`calculate_surface_dsc.py`)

The volumes produced by `resample_contour_slices` are created with
`np.zeros(...)` — dtype float64 — on **every** return path of that
function (lines 78, 80, 113, 115 and 157 of the source).  numpy's
bitwise ufuncs `~` (invert) and `&` (and) are undefined for float
arrays and raise `TypeError`.  `calculate_surface_dsc` applies `~` to
these float64 volumes at lines 79–80 (and `&` at lines 91–92), so it
raises on every call.  To keep this error path, boolean-valued volumes
are paired with their numpy dtype and the bitwise operations are
dtype-checked, returning `Except`. -/

/-- The numpy exception raised here. -/
inductive PyErr where
  | typeError : PyErr
deriving DecidableEq

/-- The two array dtypes that occur in the metric functions. -/
inductive NpDtype where
  | float64 : NpDtype
  | npBool : NpDtype
deriving DecidableEq

/-- A numpy volume as used by the metric code: its dtype together with
its set of nonzero cells.  (The float64 resample volumes hold only the
values 0.0 and 1.0, so the nonzero set captures their content.) -/
structure NpVol where
  dtype : NpDtype
  val : Vox → Bool

/-- numpy `~arr`: elementwise negation on a bool array, `TypeError`
on a float64 array (the `invert` ufunc is undefined for floats). -/
def npInvertV (a : NpVol) : Except PyErr NpVol :=
  match a.dtype with
  | NpDtype.npBool => Except.ok ⟨NpDtype.npBool, fun v => !a.val v⟩
  | NpDtype.float64 => Except.error PyErr.typeError

/-- numpy `a & b`: elementwise conjunction when both arrays are bool,
`TypeError` when a float64 array is involved. -/
def npAndV (a b : NpVol) : Except PyErr NpVol :=
  match a.dtype, b.dtype with
  | NpDtype.npBool, NpDtype.npBool =>
      Except.ok ⟨NpDtype.npBool, fun v => a.val v && b.val v⟩
  | _, _ => Except.error PyErr.typeError

/-- One iteration of the per-tolerance loop (lines 85–103): thresholds
of the two distance fields, the two directional overlaps via `&` on
the (float64!) contour volumes, and the guarded division
`2*c2b1/(c1+c2)`.  On the actual float64 inputs the `&` raises; the
loop is in any case unreachable because lines 79–80 raise first. -/
def surface_dsc_tol_step (g : Grid) (sp : Spacing) (c1 c2 : NpVol) (t : ℚ) :
    Except PyErr ℚ := do
  let diff1 : NpVol := ⟨NpDtype.npBool, fun v => withinTol g sp c1.val v t⟩
  let diff2 : NpVol := ⟨NpDtype.npBool, fun v => withinTol g sp c2.val v t⟩
  let overlap1 ← npAndV c1 diff2
  let overlap2 ← npAndV c2 diff1
  let _ := maskCount g overlap1.val
  let c2b1 := maskCount g overlap2.val
  let n1 := maskCount g c1.val
  let n2 := maskCount g c2.val
  if n1 + n2 > 0 then pure (2 * (c2b1 : ℚ) / ((n1 : ℚ) + (n2 : ℚ)))
  else pure 0

/-- The grid as a `Finset` of voxels (used only by the spec-side
definition below, which is written independently of the source). -/
def gridFinset (g : Grid) : Finset Vox :=
  (Finset.range g.nx) ×ˢ ((Finset.range g.ny) ×ˢ (Finset.range g.nz))

/-- Spec-side surface-DSC formula, written from the specification's
words: "returns `2·(voxels of A within τ of B) / (|A|+|B|)` per τ",
where a voxel of `A` is within τ of `B` when some voxel of `B` lies at
(anisotropic) distance at most τ from it.  `A` is the first mask. -/
def surfaceDSCSpec (g : Grid) (sp : Spacing) (a b : Vox → Bool) (t : ℚ) : ℚ :=
  2 * (((gridFinset g).filter
      (fun v => a v = true ∧ 0 ≤ t ∧
        ∃ w ∈ gridFinset g, b w = true ∧ distSq sp v w ≤ t ^ 2)).card : ℚ) /
    ((((gridFinset g).filter (fun v => a v = true)).card : ℚ) +
      (((gridFinset g).filter (fun v => b v = true)).card : ℚ))

/-! ## Added path length (`calculate_path_length.py`,
`calculate_different_path_length_v2.py`)

Both variants build `contour1_tol = distance_c1 <= tolerance`, form
`diff_contours = contour1_tol.astype(int) - contour2.astype(int)` and,
per through-plane slice `ii`, count entries equal to `-1` (present in
the comparison mask but outside the tolerance-expanded reference) and
multiply by a per-voxel length factor.  Only the v2 variant converts
the float64 resample volume with `.astype(bool)` before inverting
(line 77); `calculate_path_length` applies `~` to the float64 volume
directly (line 78) and raises `TypeError` on every call, so its
per-slice expression below is dead code. -/

/-- `np.sum(diff_slice_contour == -1)` for slice `ii`: the entry is
`-1` exactly when the tolerance-expanded reference is `0` and the
comparison mask is `1` at that voxel. -/
def diffCountSlice (g : Grid) (sp : Spacing) (c1 c2 : Vox → Bool) (t : ℚ) (ii : ℕ) : ℕ :=
  (gridVox g).countP
    (fun v => decide (v.2.1 = ii) && !(withinTol g sp c1 v t) && c2 v)

/-- Per-slice expression of `calculate_path_length`'s loop:
`np.sum(diff_slice_contour == -1) * (PixelSpacingXi * 10)` (mm).
Execution never reaches this loop — line 78 raises first; the
expression is retained to state what the loop would compute. -/
def path_length_slice (g : Grid) (sp : Spacing) (c1 c2 : Vox → Bool) (t : ℚ) (ii : ℕ) : ℚ :=
  (diffCountSlice g sp c1 c2 t ii : ℚ) * (sp.sx * 10)

/-- The IEEE-754 double value of `np.sqrt(2)`, as an exact rational:
`6369051672525773 · 2⁻⁵²`. -/
def sqrt2Float : ℚ := 6369051672525773 / 4503599627370496

/-- `pixel_size_factor` of `calculate_different_path_length_v2`:
`(sqrt(2)*sx*10)/2 + (sx*10)/2`, the average of the diagonal and
straight per-voxel lengths. -/
def pixel_size_factor (sp : Spacing) : ℚ :=
  (sqrt2Float * (sp.sx * 10)) / 2 + (sp.sx * 10) / 2

/-- Per-slice added path length of `calculate_different_path_length_v2`
for one tolerance: `np.sum(diff_slice_contour == -1) * pixel_size_factor`. -/
def path_length_v2_slice (g : Grid) (sp : Spacing) (c1 c2 : Vox → Bool) (t : ℚ) (ii : ℕ) : ℚ :=
  (diffCountSlice g sp c1 c2 t ii : ℚ) * pixel_size_factor sp

/-! ## Structure bitmask composer (`compose_struct_matrix.py`)

The scan geometry, the RTSTRUCT data model and the main loop.  The
polygon fill (`skimage.draw.polygon`) is an external library call; the
embedding takes it as a parameter `fill z_samp x_samp (nx, nz)`
returning the `(rr, cc)` index pairs, so every theorem below holds for
an arbitrary fill. -/

/-- Scan geometry fields used by the composer (`PixelFirst*i`,
`PixelSpacing*i`, `PixelNum*i`); the `Image` array has shape
`(PixelNumXi, PixelNumYi, PixelNumZi)`. -/
structure Scan where
  firstX : ℚ
  firstY : ℚ
  firstZ : ℚ
  spX : ℚ
  spY : ℚ
  spZ : ℚ
  numX : ℕ
  numY : ℕ
  numZ : ℕ

/-- One contour slice: coordinate vectors `X`, `Y`, `Z` (equal length;
an empty `X`/`Y` denotes an empty slice). -/
structure SliceData where
  X : List ℚ
  Y : List ℚ
  Z : List ℚ

/-- One structure: its list of contour slices. -/
structure StructData where
  slices : List SliceData

/-- An RTSTRUCT structure set: `StructNum` and the `Struct` list. -/
structure RTStruct where
  structNum : ℕ
  structs : List StructData

/-- Non-fatal diagnostics printed by the composer, tagged with the
index of the structure they concern. -/
inductive Diag where
  | capOverflow : Diag
  | discrep : ℕ → Diag
  | spanWarn : ℕ → Diag
  | tolWarn : ℕ → Diag
deriving DecidableEq

/-- `np.round` rounds half to even (banker's rounding); the subsequent
`.astype(int)` / `int(...)` is exact on the already-integral value. -/
def roundHalfEven (q : ℚ) : ℤ :=
  let f : ℤ := ⌊q⌋
  let r : ℚ := q - (f : ℚ)
  if r < 1 / 2 then f
  else if 1 / 2 < r then f + 1
  else if f % 2 = 0 then f else f + 1

/-- `yct = PixelFirstYi + arange(PixelNumYi) * PixelSpacingYi`. -/
def yct (scan : Scan) : List ℚ :=
  (List.range scan.numY).map (fun k => scan.firstY + (k : ℚ) * scan.spY)

/-- Minimum of a list of rationals (`np.min`; grids are non-empty). -/
def listMin (l : List ℚ) : ℚ :=
  l.foldr min (l.headD 0)

/-- Maximum of a list of rationals (`np.max`). -/
def listMax (l : List ℚ) : ℚ :=
  l.foldr max (l.headD 0)

/-- Outcome of the slice-position checks of the composer's inner loop
(lines 66–86 of `compose_struct_matrix.py`). -/
inductive SliceCase where
  /-- `Y` missing or empty: nothing happens, loop continues. -/
  | empty : SliceCase
  /-- `any(y_diff < 0.0001)`: exact hit, slice is processed. -/
  | hit : SliceCase
  /-- `Y[0]` outside `[min yct, max yct]`: `warning1`, slice skipped. -/
  | span : SliceCase
  /-- `any(y_diff <= 0.11)`: `warning2`, slice still processed. -/
  | tol : SliceCase
  /-- discrepancy: diagnostic printed and the slice loop `break`s. -/
  | far : SliceCase
deriving DecidableEq

/-- Classification of one slice against the scan's `yct` positions,
following the `if`/`elif` chain of the source. -/
def classifySlice (scan : Scan) (sl : SliceData) : SliceCase :=
  match sl.Y with
  | [] => .empty
  | y0 :: _ =>
    if (yct scan).any (fun yk => decide (|yk - y0| < 1 / 10000)) then .hit
    else if y0 < listMin (yct scan) ∨ listMax (yct scan) < y0 then .span
    else if (yct scan).any (fun yk => decide (|yk - y0| ≤ 11 / 100)) then .tol
    else .far

/-- The bit-packed output volume, indexed `(x, y, z)`. -/
abbrev Mat : Type := Vox → ℕ

/-- A polygon-fill oracle standing for `skimage.draw.polygon`: given
`z_samp`, `x_samp` and the clip shape `(PixelNumXi, PixelNumZi)`, the
`(rr, cc)` pairs of filled pixels. -/
abbrev Fill : Type := List ℚ → List ℚ → ℕ × ℕ → List (ℕ × ℕ)

/-- Set bit `i` at voxel `(r, y, c)`:
`matrix[r, y_idx, c] |= (1 << i)`. -/
def setBitAt (m : Mat) (i : ℕ) (r y c : ℕ) : Mat :=
  fun v => if v = (r, y, c) then m v ||| (1 <<< i) else m v

/-- Processing of one accepted slice: compute `y_samp`, round it, and
if the resulting index is inside the Y extent, OR bit `i` into every
in-range pixel the polygon fill returns. -/
def applySlice (scan : Scan) (fill : Fill) (i : ℕ) (sl : SliceData) (m : Mat) : Mat :=
  match sl.Y with
  | [] => m
  | y0 :: _ =>
    let xSamp := sl.X.map (fun x => (x - scan.firstX) / scan.spX)
    let zSamp := sl.Z.map (fun z => (z - scan.firstZ) / scan.spZ)
    let ySamp := (y0 - scan.firstY) / scan.spY
    let yIdx : ℤ := roundHalfEven ySamp
    if 0 ≤ yIdx ∧ yIdx < (scan.numY : ℤ) then
      let yN : ℕ := yIdx.toNat
      (fill zSamp xSamp (scan.numX, scan.numZ)).foldl
        (fun acc rc =>
          if rc.1 < scan.numX ∧ rc.2 < scan.numZ then
            setBitAt acc i rc.1 yN rc.2
          else acc) m
    else m

/-- The slice loop of one structure.  Returns the updated matrix, the
`warning1`/`warning2` flags and whether the loop was `break`-ed by a
discrepant slice (in which case the remaining slices are *not*
visited). -/
def procSlices (scan : Scan) (fill : Fill) (i : ℕ) :
    List SliceData → Mat → Bool → Bool → Mat × Bool × Bool × Bool
  | [], m, w1, w2 => (m, w1, w2, false)
  | sl :: rest, m, w1, w2 =>
    match classifySlice scan sl with
    | .empty => procSlices scan fill i rest m w1 w2
    | .hit => procSlices scan fill i rest (applySlice scan fill i sl m) w1 w2
    | .span => procSlices scan fill i rest m true w2
    | .tol => procSlices scan fill i rest (applySlice scan fill i sl m) w1 true
    | .far => (m, w1, w2, true)

/-- Processing of one structure: structures with `len(Slice) <= 1` are
skipped outright; otherwise the slice loop runs and the collected
diagnostics are emitted (the discrepancy print happens at `break`
time, the two warnings after the loop). -/
def procStruct (scan : Scan) (fill : Fill) (i : ℕ) (st : StructData) (m : Mat) :
    Mat × List Diag :=
  if 1 < st.slices.length then
    let r := procSlices scan fill i st.slices m false false
    (r.1,
      (if r.2.2.2 then [Diag.discrep i] else []) ++
        (if r.2.1 then [Diag.spanWarn i] else []) ++
        (if r.2.2.1 then [Diag.tolWarn i] else []))
  else (m, [])

/-- The structure loop (`for i in range(struct_num)`), carrying the
running structure index. -/
def procStructs (scan : Scan) (fill : Fill) :
    ℕ → List StructData → Mat → Mat × List Diag
  | _, [], m => (m, [])
  | i, st :: rest, m =>
    let r1 := procStruct scan fill i st m
    let r2 := procStructs scan fill (i + 1) rest r1.1
    (r2.1, r1.2 ++ r2.2)

/-- Integer width of the output matrix chosen from the structure
count: `uint16` / `uint32` / `uint64`, capped at 64 bits. -/
def matrixWidth (n : ℕ) : ℕ :=
  if n ≤ 16 then 16 else if n ≤ 32 then 32 else 64

/-- `compose_struct_matrix`: selects the width, truncates the
structure count at 64 (with a capacity diagnostic), and runs the
structure loop over the processed prefix starting from an all-zero
matrix. -/
def compose_struct_matrix (scan : Scan) (rts : RTStruct) (fill : Fill) :
    Mat × List Diag :=
  let effNum := if 64 < rts.structNum then 64 else rts.structNum
  let capDiags : List Diag := if 64 < rts.structNum then [Diag.capOverflow] else []
  let r := procStructs scan fill 0 (rts.structs.take effNum) (fun _ => 0)
  (r.1, capDiags ++ r.2)

/-! ## Contour rasterizer (`resample_contour_slices.py`)

Each slice with at least one point is upsampled by linear
interpolation (`np.interp` over `np.arange(1, N+1, 0.1)`), all
upsampled points are converted to 1-based grid indices by rounding,
points far outside the grid are dropped, moderately-outside points are
clamped with a warning, the in-plane bounding box is taken, and the
surviving points are marked in an otherwise-zero volume — only the
boundary points, there is no polygon fill in this function. -/

/-- `np.interp` at abscissa `t` against `xp = [1, …, n]`: clamped to
the first/last ordinate outside `[1, n]`, linear in between. -/
def interpAt (pts : List ℚ) (t : ℚ) : ℚ :=
  if (pts.length : ℚ) ≤ t then pts.getLastD 0
  else if t ≤ 1 then pts.headD 0
  else
    let m : ℕ := (⌊t⌋).toNat
    pts.getD (m - 1) 0 + (t - (m : ℚ)) * (pts.getD m 0 - pts.getD (m - 1) 0)

/-- Upsampling of one slice: `new_sampling = np.arange(1, N+1, 0.1)`
has `10·N` entries `1 + k/10`; each coordinate vector is interpolated
at all of them. -/
def upsampleSlice (sl : SliceData) : List (ℚ × ℚ × ℚ) :=
  (List.range (10 * sl.X.length)).map (fun k =>
    let t : ℚ := 1 + (k : ℚ) / 10
    (interpAt sl.X t, interpAt sl.Y t, interpAt sl.Z t))

/-- `rts_cs_aux`: concatenation of the upsampled points of every slice
that has at least one point. -/
def upsampleAll (slices : List SliceData) : List (ℚ × ℚ × ℚ) :=
  (slices.filter (fun sl => !sl.X.isEmpty)).flatMap upsampleSlice

/-- Physical point to 1-based grid index per axis:
`round((coord - PixelFirst) / PixelSpacing) + 1`. -/
def toGrid1 (ct : Scan) (p : ℚ × ℚ × ℚ) : ℤ × ℤ × ℤ :=
  (roundHalfEven ((p.1 - ct.firstX) / ct.spX) + 1,
    roundHalfEven ((p.2.1 - ct.firstY) / ct.spY) + 1,
    roundHalfEven ((p.2.2 - ct.firstZ) / ct.spZ) + 1)

/-- `non_valid` filter with `outside_grid_limit = 5`: a point survives
unless some 1-based index is below `-5` or beyond `PixelNum + 5`. -/
def validPt (ct : Scan) (q : ℤ × ℤ × ℤ) : Bool :=
  !(q.1 < -5 || q.2.1 < -5 || q.2.2 < -5 ||
    q.1 > (ct.numX : ℤ) + 5 || q.2.1 > (ct.numY : ℤ) + 5 ||
    q.2.2 > (ct.numZ : ℤ) + 5)

/-- Condition of the clamping block: some entry `< 1`, or some axis
maximum beyond `PixelNum - 1`. -/
def needsClamp (ct : Scan) (pts : List (ℤ × ℤ × ℤ)) : Bool :=
  pts.any (fun q => q.1 < 1 || q.2.1 < 1 || q.2.2 < 1) ||
    pts.any (fun q => q.1 > (ct.numX : ℤ) - 1) ||
    pts.any (fun q => q.2.1 > (ct.numY : ℤ) - 1) ||
    pts.any (fun q => q.2.2 > (ct.numZ : ℤ) - 1)

/-- The clamping itself: entries `< 1` become `1`, then each axis is
capped at `PixelNum - 1`. -/
def clampPt (ct : Scan) (q : ℤ × ℤ × ℤ) : ℤ × ℤ × ℤ :=
  (min (max q.1 1) ((ct.numX : ℤ) - 1),
    min (max q.2.1 1) ((ct.numY : ℤ) - 1),
    min (max q.2.2 1) ((ct.numZ : ℤ) - 1))

/-- The `minmax` bounding box, in 1-based grid indices. -/
structure MinMax where
  minX : ℤ
  maxX : ℤ
  minZ : ℤ
  maxZ : ℤ
deriving DecidableEq

/-- Minimum of a list of integers (`np.min`). -/
def listMinI (l : List ℤ) : ℤ :=
  l.foldr min (l.headD 0)

/-- Maximum of a list of integers (`np.max`). -/
def listMaxI (l : List ℤ) : ℤ :=
  l.foldr max (l.headD 0)

/-- Result of `resample_contour_slices`: the list of 0-based voxel
indices set to `1` in the returned volume, the bounding box, the
"points outside the current GRID" warning flag, and whether the final
index assignment failed (`ravel_multi_index` `ValueError`, in which
case no voxel is set). -/
structure ResampleResult where
  placed : List Vox
  minmax : MinMax
  pasOp : Bool
  setFailed : Bool
deriving DecidableEq

/-- `resample_contour_slices`: upsample, convert to grid indices, drop
far-outside points, clamp moderately-outside points, compute the
bounding box and mark the surviving points.  Both empty-input exits
(no slice has points; all points invalid) return no placed voxels and
the degenerate all-ones bounding box. -/
def resample_contour_slices (slices : List SliceData) (ct : Scan) : ResampleResult :=
  let ups := upsampleAll slices
  if ups.isEmpty then ⟨[], ⟨1, 1, 1, 1⟩, false, false⟩
  else
    let grid1 := (ups.map (toGrid1 ct)).filter (validPt ct)
    if grid1.isEmpty then ⟨[], ⟨1, 1, 1, 1⟩, false, false⟩
    else
      let needs := needsClamp ct grid1
      let pts := if needs then grid1.map (clampPt ct) else grid1
      let mm : MinMax :=
        ⟨listMinI (pts.map (fun q => q.1)), listMaxI (pts.map (fun q => q.1)),
          listMinI (pts.map (fun q => q.2.2)), listMaxI (pts.map (fun q => q.2.2))⟩
      let pts0 := pts.map (fun q => (q.1 - 1, q.2.1 - 1, q.2.2 - 1))
      let ok := pts0.all (fun q =>
        decide (0 ≤ q.1) && decide (q.1 < (ct.numX : ℤ)) &&
          decide (0 ≤ q.2.1) && decide (q.2.1 < (ct.numY : ℤ)) &&
          decide (0 ≤ q.2.2) && decide (q.2.2 < (ct.numZ : ℤ)))
      let placed : List Vox :=
        if ok then pts0.map (fun q => (q.1.toNat, q.2.1.toNat, q.2.2.toNat)) else []
      ⟨placed, mm, needs, !ok⟩

/-- The binary volume returned by `resample_contour_slices`, as a
boolean mask over voxel indices. -/
def resampleMask (res : ResampleResult) : Vox → Bool :=
  fun v => res.placed.contains v

/-! ## The metric functions end-to-end

`calculate_surface_dsc` and `calculate_path_length` consume the
float64 resample volumes directly; the dtype-checked model makes their
unconditional `TypeError` explicit.  The in-plane crop (margin 20
resp. 15) and the transposes preserve both the dtype and the set of
nonzero voxels (every placed voxel lies inside the cropped range by
construction of the bounding box), so they are elided; the distance
fields of the source appear as the thresholded predicates
(`withinTol`) inside the loop bodies. -/

/-- The grid dimensions carried by a scan dictionary. -/
def gridOf (ct : Scan) : Grid :=
  ⟨ct.numX, ct.numY, ct.numZ⟩

/-- The per-axis spacing carried by a scan dictionary. -/
def spacingOf (ct : Scan) : Spacing :=
  ⟨ct.spX, ct.spY, ct.spZ⟩

/-- The volume `resample_contour_slices` hands to the metric
functions, as a typed numpy array: dtype float64 (`np.zeros` default
on every return path of the source), value 1.0 exactly at the placed
voxels. -/
def resampleVol (slices : List SliceData) (ct : Scan) : NpVol :=
  ⟨NpDtype.float64, resampleMask (resample_contour_slices slices ct)⟩

/-- `calculate_surface_dsc`: resample both structures, invert the
(float64) volumes for the two distance transforms (lines 79–80 — this
is where every call raises `TypeError`), then run the per-tolerance
loop. -/
def calculate_surface_dsc (ct : Scan) (slA slB : List SliceData) (ts : List ℚ) :
    Except PyErr (List ℚ) := do
  let contour1 := resampleVol slA ct
  let contour2 := resampleVol slB ct
  let _ ← npInvertV contour1
  let _ ← npInvertV contour2
  ts.mapM (surface_dsc_tol_step (gridOf ct) (spacingOf ct) contour1 contour2)

/-- `calculate_path_length`: resample both structures, invert the
(float64) reference volume for the distance transform (line 78 — this
is where every call raises `TypeError`), then the per-slice loop of
lines 88–109. -/
def calculate_path_length (ct : Scan) (slA slB : List SliceData) (t : ℚ) :
    Except PyErr (List ℚ) := do
  let contour1 := resampleVol slA ct
  let contour2 := resampleVol slB ct
  let _ ← npInvertV contour1
  pure ((List.range ct.numY).map (fun ii =>
    path_length_slice (gridOf ct) (spacingOf ct) contour1.val contour2.val t ii))

/-! ## Concrete fixtures used by witnesses and counterexamples -/

/-- Unit isotropic spacing. -/
def sp1 : Spacing := ⟨1, 1, 1⟩

/-- A 1×3×1 scan with unit spacing and origin 0: `yct = [0, 1, 2]`. -/
def scanC3 : Scan := ⟨0, 0, 0, 1, 1, 1, 1, 3, 1⟩

/-- A polygon fill that always returns the single pixel `(0,0)`. -/
def fill0 : Fill := fun _ _ _ => [(0, 0)]

/-- A one-point contour slice at through-plane position `y`. -/
def sliceAtY (y : ℚ) : SliceData := ⟨[0], [y], [0]⟩

/-- One structure whose middle slice sits at `y = 1/2`, between scan
slices and outside the 0.11 tolerance band: a discrepant slice
followed by a valid slice at `y = 2`. -/
def rtsWithFar : RTStruct := ⟨1, [⟨[sliceAtY 0, sliceAtY (1 / 2), sliceAtY 2]⟩]⟩

/-- The same structure with the discrepant slice removed. -/
def rtsNoFar : RTStruct := ⟨1, [⟨[sliceAtY 0, sliceAtY 2]⟩]⟩

/-- A structure set with 70 (empty) structures. -/
def rts70 : RTStruct := ⟨70, List.replicate 70 ⟨[]⟩⟩

/-- A structure set whose first structure has exactly one slice. -/
def rtsSingleSlice : RTStruct := ⟨2, [⟨[sliceAtY 0]⟩, ⟨[sliceAtY 0, sliceAtY 2]⟩]⟩

/-- An 8×3×8 scan with unit spacing and origin 0. -/
def ct8 : Scan := ⟨0, 0, 0, 1, 1, 1, 8, 3, 8⟩

/-- One slice holding a convex square polygon with vertices `(0,0)`,
`(6,0)`, `(6,6)`, `(0,6)` in the X–Z plane at `y = 1`. -/
def sqSlice : SliceData := ⟨[0, 6, 6, 0], [1, 1, 1, 1], [0, 0, 6, 6]⟩

/-- The voxels `resample_contour_slices` actually sets for `sqSlice` on
`ct8`: the discretised boundary of the three polyline segments (the
closing edge from `(0,6)` back to `(0,0)` is not part of the
polyline), all at through-plane index 1. -/
def ring19 : List Vox :=
  [(0, 1, 0), (1, 1, 0), (2, 1, 0), (3, 1, 0), (4, 1, 0), (5, 1, 0),
    (6, 1, 0), (6, 1, 1), (6, 1, 2), (6, 1, 3), (6, 1, 4), (6, 1, 5),
    (6, 1, 6), (5, 1, 6), (4, 1, 6), (3, 1, 6), (2, 1, 6), (1, 1, 6),
    (0, 1, 6)]

/-! ## Theorems: Dice degenerate case (claim C1) -/

/-- Claim C1, corrected.  When both extracted bit-plane masks are
empty, `calculate_dice_logical` returns exactly `1.0`, but
`calculate_dice` — also cited by the claim — performs the division
unconditionally and produces the undefined `0/0` (numpy `nan`,
modelled as `none`) instead of `1.0`. -/
theorem claim_C1 (voi1 voi2 : List ℕ) (s1 s2 : ℕ)
    (h1 : maskSum (structMask voi1 s1) = 0)
    (h2 : maskSum (structMask voi2 s2) = 0) :
    calculate_dice_logical voi1 voi2 s1 s2 = 1 ∧
      calculate_dice voi1 voi2 s1 s2 = none := by
  unfold calculate_dice_logical calculate_dice
  simp [h1, h2]

/-- Witness for C1 at the concrete volumes `[0]`, `[0]`. -/
theorem claim_C1_witness :
    maskSum (structMask [0] 1) = 0 ∧
      (calculate_dice_logical [0] [0] 1 1 = 1 ∧ calculate_dice [0] [0] 1 1 = none) :=
  ⟨by decide, claim_C1 [0] [0] 1 1 (by decide) (by decide)⟩

/-- Counterexample to C1 as stated: on the single-voxel volumes `[0]`
both extracted masks are empty, yet `calculate_dice` does not return
`1.0` — its result is the undefined `0/0`. -/
theorem claim_C1_counterexample :
    maskSum (structMask [0] 1) = 0 ∧ maskSum (structMask [0] 1) = 0 ∧
      calculate_dice [0] [0] 1 1 ≠ some 1 := by
  refine ⟨rfl, rfl, ?_⟩
  decide

/-! ## Theorems: the surface DSC error path (claims C7, C10) -/

/-- Claim C7, code bug.  The spec's monotonicity property presumes the
operation produces per-tolerance values, and the source's own
docstring promises a returned float/array — but `calculate_surface_dsc`
raises `TypeError` at line 79 (`~` on the float64 resample volume) on
every call, so no surface-DSC values ever exist to compare at
`τ1 ≤ τ2`; here the failure is evaluated at a concrete two-tolerance
call. -/
theorem claim_C7 :
    calculate_surface_dsc ct8 [sqSlice] [sqSlice] [1, 2] =
      Except.error PyErr.typeError :=
  rfl

/-- Claim C10, code bug.  The both-empty guard (lines 100–103) that
would store `0.0` per tolerance is unreachable: evaluated at two empty
structures, the function raises `TypeError` at line 79 instead of
returning `0.0`. -/
theorem claim_C10 :
    calculate_surface_dsc ct8 [⟨[], [], []⟩] [⟨[], [], []⟩] [5] =
      Except.error PyErr.typeError :=
  rfl

/-! ## Theorems: added path length on identical contours (claim C8) -/

/-- The anisotropic squared distance from a voxel to itself is zero. -/
theorem distSq_self (sp : Spacing) (v : Vox) : distSq sp v v = 0 := by
  unfold distSq
  ring

/-- With a non-negative tolerance, comparing a mask against itself
leaves no voxel of the comparison outside the tolerance-expanded
reference: the `-1` count of the difference image is zero. -/
theorem diffCountSlice_self (g : Grid) (sp : Spacing) (c : Vox → Bool)
    {t : ℚ} (h : 0 ≤ t) (ii : ℕ) : diffCountSlice g sp c c t ii = 0 := by
  unfold diffCountSlice
  rw [List.countP_eq_zero]
  intro v hv hcontra
  rw [Bool.and_eq_true, Bool.and_eq_true] at hcontra
  obtain ⟨⟨-, hnot⟩, hc⟩ := hcontra
  have hwt : withinTol g sp c v t = true := by
    unfold withinTol
    rw [Bool.and_eq_true]
    refine ⟨decide_eq_true h, List.any_eq_true.mpr ⟨v, hv, ?_⟩⟩
    rw [Bool.and_eq_true]
    refine ⟨hc, decide_eq_true ?_⟩
    rw [distSq_self]
    positivity
  rw [hwt] at hnot
  exact absurd hnot (by decide)

/-- Claim C8, corrected.  A structure compared against an identical
copy of itself gives added path length `0` in every slice for every
tolerance ≥ 0 under `calculate_different_path_length_v2`; the other
cited variant, `calculate_path_length`, produces no result at all — it
raises `TypeError` on every call (`~` on the float64 resample volume
at line 78; the `astype(bool)` conversion exists only in v2). -/
theorem claim_C8 (sl : List SliceData) (ct : Scan) (g : Grid) (sp : Spacing)
    (t : ℚ) (ii : ℕ) (h : 0 ≤ t) :
    path_length_v2_slice g sp (resampleMask (resample_contour_slices sl ct))
        (resampleMask (resample_contour_slices sl ct)) t ii = 0 ∧
      calculate_path_length ct sl sl t = Except.error PyErr.typeError := by
  refine ⟨?_, rfl⟩
  unfold path_length_v2_slice
  rw [diffCountSlice_self g sp _ h ii]
  simp

/-- Witness for C8: the square contour of `sqSlice` on the 8×3×8 grid
versus itself, tolerance `1/2`, slice 1. -/
theorem claim_C8_witness :
    (0 : ℚ) ≤ 1 / 2 ∧
      (path_length_v2_slice ⟨8, 3, 8⟩ sp1 (resampleMask (resample_contour_slices [sqSlice] ct8))
          (resampleMask (resample_contour_slices [sqSlice] ct8)) (1 / 2) 1 = 0 ∧
        calculate_path_length ct8 [sqSlice] [sqSlice] (1 / 2) = Except.error PyErr.typeError) :=
  ⟨by norm_num, claim_C8 [sqSlice] ct8 ⟨8, 3, 8⟩ sp1 (1 / 2) 1 (by norm_num)⟩

/-- Counterexample to C8 as stated: `calculate_path_length` — one of
the two added-path-length operations the claim covers — yields no
per-slice zeros on identical inputs; it raises instead of returning
the all-zero per-slice array. -/
theorem claim_C8_counterexample :
    calculate_path_length ct8 [sqSlice] [sqSlice] (1 / 2) = Except.error PyErr.typeError ∧
      calculate_path_length ct8 [sqSlice] [sqSlice] (1 / 2) ≠
        Except.ok (List.replicate 3 (0 : ℚ)) :=
  ⟨rfl, fun h => Except.noConfusion h⟩

/-! ## Theorems: the surface DSC return value (claim C2) -/

/-- Claim C2, corrected.  The surface DSC operation computes no
per-tolerance agreement value at all: `~contour1_zyx` on the float64
resample volume raises `TypeError` on every call (lines 79–80), before
the tolerance loop — whose own `contour1_zyx & diff2` and
`contour2_zyx & diff1` (lines 91–92) would equally raise on the
float64 volumes.  Nothing of the form `2·(count)/(|A|+|B|)` is ever
returned for any tolerance. -/
theorem claim_C2 (ct : Scan) (slA slB : List SliceData) (ts : List ℚ) :
    calculate_surface_dsc ct slA slB ts = Except.error PyErr.typeError :=
  rfl

/-- Counterexample to C2 as stated: at a concrete input the operation
produces no value at all — in particular not the claimed
`2·(voxels of A within τ of B)/(|A|+|B|)` per tolerance
(`surfaceDSCSpec`). -/
theorem claim_C2_counterexample :
    calculate_surface_dsc ct8 [sqSlice] [sqSlice] [2] = Except.error PyErr.typeError ∧
      calculate_surface_dsc ct8 [sqSlice] [sqSlice] [2] ≠
        Except.ok [surfaceDSCSpec (gridOf ct8) (spacingOf ct8)
          (resampleMask (resample_contour_slices [sqSlice] ct8))
          (resampleMask (resample_contour_slices [sqSlice] ct8)) 2] :=
  ⟨rfl, fun h => Except.noConfusion h⟩

/-! ## Theorems: bitmask composer invariants (claims C9, C6, C3)

The updates of the composer only ever touch bit `i` while processing
structure `i`; the following chain of lemmas propagates this through
the polygon-fill fold, the slice loop and the structure loop. -/

/-- A single `|= (1 << i)` update leaves every other bit unchanged. -/
theorem setBitAt_testBit {i b : ℕ} (hne : i ≠ b) (m : Mat) (r y c : ℕ) (v : Vox) :
    Nat.testBit (setBitAt m i r y c v) b = Nat.testBit (m v) b := by
  unfold setBitAt
  by_cases hv : v = (r, y, c)
  · rw [if_pos hv, Nat.shiftLeft_eq, one_mul, Nat.testBit_or, Nat.testBit_two_pow]
    simp [hne]
  · rw [if_neg hv]

/-- The polygon-fill fold of one slice only touches bit `i`. -/
theorem foldl_setBit_testBit {i b : ℕ} (hne : i ≠ b) (scan : Scan) (yN : ℕ)
    (pts : List (ℕ × ℕ)) (m : Mat) (v : Vox) :
    Nat.testBit ((pts.foldl (fun acc rc =>
        if rc.1 < scan.numX ∧ rc.2 < scan.numZ then setBitAt acc i rc.1 yN rc.2
        else acc) m) v) b = Nat.testBit (m v) b := by
  induction pts generalizing m with
  | nil => rfl
  | cons p rest ih =>
    rw [List.foldl_cons, ih]
    by_cases hp : p.1 < scan.numX ∧ p.2 < scan.numZ
    · rw [if_pos hp, setBitAt_testBit hne]
    · rw [if_neg hp]

/-- Processing one slice for structure `i` only touches bit `i`. -/
theorem applySlice_testBit {i b : ℕ} (hne : i ≠ b) (scan : Scan) (fill : Fill)
    (sl : SliceData) (m : Mat) (v : Vox) :
    Nat.testBit (applySlice scan fill i sl m v) b = Nat.testBit (m v) b := by
  obtain ⟨X, Y, Z⟩ := sl
  cases Y with
  | nil => rfl
  | cons y0 ys =>
    simp only [applySlice]
    split
    · exact foldl_setBit_testBit hne scan _ _ m v
    · rfl

/-- The slice loop for structure `i` only touches bit `i`. -/
theorem procSlices_testBit {i b : ℕ} (hne : i ≠ b) (scan : Scan) (fill : Fill)
    (sls : List SliceData) :
    ∀ (m : Mat) (w1 w2 : Bool) (v : Vox),
      Nat.testBit ((procSlices scan fill i sls m w1 w2).1 v) b =
        Nat.testBit (m v) b := by
  induction sls with
  | nil => intro m w1 w2 v; rfl
  | cons sl rest ih =>
    intro m w1 w2 v
    cases hc : classifySlice scan sl <;> simp only [procSlices, hc]
    · exact ih m w1 w2 v
    · rw [ih, applySlice_testBit hne]
    · exact ih m true w2 v
    · rw [ih, applySlice_testBit hne]

/-- Processing one structure only touches its own bit. -/
theorem procStruct_testBit {i b : ℕ} (hne : i ≠ b) (scan : Scan) (fill : Fill)
    (st : StructData) (m : Mat) (v : Vox) :
    Nat.testBit ((procStruct scan fill i st m).1 v) b = Nat.testBit (m v) b := by
  simp only [procStruct]
  by_cases h : 1 < st.slices.length
  · rw [if_pos h]
    exact procSlices_testBit hne scan fill st.slices m false false v
  · rw [if_neg h]

/-- A structure with at most one slice is skipped outright: the matrix
is unchanged and no diagnostic is emitted. -/
theorem procStruct_skip (scan : Scan) (fill : Fill) (i : ℕ) (st : StructData)
    (m : Mat) (h : ¬1 < st.slices.length) :
    procStruct scan fill i st m = (m, []) := by
  simp only [procStruct, if_neg h]

/-- The structure loop leaves bit `b` unchanged provided every
structure whose loop index equals `b` has at most one slice. -/
theorem procStructs_testBit (scan : Scan) (fill : Fill) (b : ℕ) :
    ∀ (l : List StructData) (i0 : ℕ) (m : Mat) (v : Vox),
      (∀ (j : ℕ) (hj : j < l.length), i0 + j = b →
        (l.get ⟨j, hj⟩).slices.length ≤ 1) →
      Nat.testBit ((procStructs scan fill i0 l m).1 v) b =
        Nat.testBit (m v) b := by
  intro l
  induction l with
  | nil => intro i0 m v _; rfl
  | cons st rest ih =>
    intro i0 m v h
    simp only [procStructs]
    rw [ih (i0 + 1) _ v ?_]
    · by_cases hib : i0 = b
      · have hle : st.slices.length ≤ 1 := h 0 (by simp) (by omega)
        rw [procStruct_skip scan fill i0 st m (by omega)]
      · rw [procStruct_testBit hib scan fill st m v]
    · intro j hj hij
      exact h (j + 1) (by simpa using Nat.succ_lt_succ hj) (by omega)

/-- Membership in a one-element conditional list forces the element. -/
theorem mem_ite_singleton {c : Prop} [Decidable c] {d x : Diag}
    (hd : d ∈ (if c then [x] else [])) : d = x := by
  split at hd
  · simpa using hd
  · simp at hd

/-- Every diagnostic of one structure carries that structure's index
and is only emitted when the structure has more than one slice. -/
theorem procStruct_diag_mem (scan : Scan) (fill : Fill) (i : ℕ) (st : StructData)
    (m : Mat) (d : Diag) (hd : d ∈ (procStruct scan fill i st m).2) :
    1 < st.slices.length ∧
      (d = Diag.discrep i ∨ d = Diag.spanWarn i ∨ d = Diag.tolWarn i) := by
  by_cases h : 1 < st.slices.length
  · refine ⟨h, ?_⟩
    simp only [procStruct, if_pos h] at hd
    have hgen : ∀ (b1 b2 b3 : Bool),
        d ∈ ((if b1 then [Diag.discrep i] else []) ++
            (if b2 then [Diag.spanWarn i] else []) ++
            (if b3 then [Diag.tolWarn i] else [])) →
        d = Diag.discrep i ∨ d = Diag.spanWarn i ∨ d = Diag.tolWarn i := by
      intro b1 b2 b3 hm
      cases b1 <;> cases b2 <;> cases b3 <;> simp at hm <;> tauto
    exact hgen _ _ _ hd
  · rw [procStruct_skip scan fill i st m h] at hd
    simp at hd

/-- Every diagnostic of the structure loop comes from some structure
of the list with more than one slice, tagged with its loop index. -/
theorem procStructs_diag_mem (scan : Scan) (fill : Fill) :
    ∀ (l : List StructData) (i0 : ℕ) (m : Mat) (d : Diag),
      d ∈ (procStructs scan fill i0 l m).2 →
      ∃ (j : ℕ) (hj : j < l.length),
        1 < (l.get ⟨j, hj⟩).slices.length ∧
          (d = Diag.discrep (i0 + j) ∨ d = Diag.spanWarn (i0 + j) ∨
            d = Diag.tolWarn (i0 + j)) := by
  intro l
  induction l with
  | nil => intro i0 m d hd; simp [procStructs] at hd
  | cons st rest ih =>
    intro i0 m d hd
    simp only [procStructs, List.mem_append] at hd
    rcases hd with hd | hd
    · obtain ⟨hlen, hform⟩ := procStruct_diag_mem scan fill i0 st m d hd
      exact ⟨0, by simp, hlen, by simpa using hform⟩
    · obtain ⟨j, hj, hlen, hform⟩ := ih (i0 + 1) _ d hd
      refine ⟨j + 1, by simpa using Nat.succ_lt_succ hj, hlen, ?_⟩
      have harith : i0 + (j + 1) = i0 + 1 + j := by omega
      rw [harith]
      exact hform

/-- Claim C9, confirmed.  A structure whose slice list has length ≤ 1
contributes nothing to the composed volume — its bit is set nowhere —
and it produces no diagnostic: it is silently dropped. -/
theorem claim_C9 (scan : Scan) (fill : Fill) (rts : RTStruct) (k : ℕ) (v : Vox)
    (hk : k < rts.structs.length)
    (h1 : (rts.structs.get ⟨k, hk⟩).slices.length ≤ 1) :
    Nat.testBit ((compose_struct_matrix scan rts fill).1 v) k = false ∧
      Diag.discrep k ∉ (compose_struct_matrix scan rts fill).2 ∧
      Diag.spanWarn k ∉ (compose_struct_matrix scan rts fill).2 ∧
      Diag.tolWarn k ∉ (compose_struct_matrix scan rts fill).2 := by
  have htake : ∀ (n j : ℕ) (hj : j < (rts.structs.take n).length), j = k →
      ((rts.structs.take n).get ⟨j, hj⟩).slices.length ≤ 1 := by
    intro n j hj hjk
    subst hjk
    have : (rts.structs.take n).get ⟨j, hj⟩ = rts.structs.get ⟨j, hk⟩ := by
      simp [List.getElem_take]
    rw [this]
    exact h1
  have hbit : Nat.testBit ((compose_struct_matrix scan rts fill).1 v) k = false := by
    simp only [compose_struct_matrix]
    rw [procStructs_testBit scan fill k _ 0 _ v ?_]
    · exact Nat.zero_testBit k
    · intro j hj hjk
      exact htake _ j hj (by omega)
  have hdiag : ∀ d : Diag, d ∈ (compose_struct_matrix scan rts fill).2 →
      d ≠ Diag.discrep k ∧ d ≠ Diag.spanWarn k ∧ d ≠ Diag.tolWarn k := by
    intro d hd
    simp only [compose_struct_matrix, List.mem_append] at hd
    rcases hd with hd | hd
    · have : d = Diag.capOverflow := by
        exact mem_ite_singleton hd
      subst this
      exact ⟨by simp, by simp, by simp⟩
    · obtain ⟨j, hj, hlen, hform⟩ := procStructs_diag_mem scan fill _ 0 _ d hd
      have hjk : j ≠ k := by
        intro hjk
        have := htake _ j hj hjk
        omega
      rcases hform with rfl | rfl | rfl <;>
        refine ⟨?_, ?_, ?_⟩ <;> simp <;> omega
  refine ⟨hbit, ?_, ?_, ?_⟩
  · intro hmem
    exact (hdiag _ hmem).1 rfl
  · intro hmem
    exact (hdiag _ hmem).2.1 rfl
  · intro hmem
    exact (hdiag _ hmem).2.2 rfl

/-- Witness for C9: a two-structure set whose first structure has a
single slice; bit 0 stays clear and no diagnostic mentions index 0. -/
theorem claim_C9_witness :
    (0 < rtsSingleSlice.structs.length ∧
        (rtsSingleSlice.structs.get ⟨0, by decide⟩).slices.length ≤ 1) ∧
      (Nat.testBit ((compose_struct_matrix scanC3 rtsSingleSlice fill0).1 (0, 0, 0)) 0 = false ∧
        Diag.discrep 0 ∉ (compose_struct_matrix scanC3 rtsSingleSlice fill0).2 ∧
        Diag.spanWarn 0 ∉ (compose_struct_matrix scanC3 rtsSingleSlice fill0).2 ∧
        Diag.tolWarn 0 ∉ (compose_struct_matrix scanC3 rtsSingleSlice fill0).2) :=
  ⟨⟨by decide, by decide⟩,
    claim_C9 scanC3 fill0 rtsSingleSlice 0 (0, 0, 0) (by decide) (by decide)⟩

/-- Claim C6, confirmed.  The integer width is 16/32/64 bits for ≤16,
≤32, ≤64 structures; beyond 64 structures the composer emits a
capacity diagnostic and the packed volume represents only the first 64
structures (no bit at position ≥ 64 is ever set). -/
theorem claim_C6 (scan : Scan) (fill : Fill) (rts : RTStruct) (v : Vox) (b : ℕ)
    (hb : 64 ≤ b) :
    (rts.structNum ≤ 16 → matrixWidth rts.structNum = 16) ∧
      (16 < rts.structNum → rts.structNum ≤ 32 → matrixWidth rts.structNum = 32) ∧
      (32 < rts.structNum → rts.structNum ≤ 64 → matrixWidth rts.structNum = 64) ∧
      (64 < rts.structNum →
        Diag.capOverflow ∈ (compose_struct_matrix scan rts fill).2 ∧
          Nat.testBit ((compose_struct_matrix scan rts fill).1 v) b = false) := by
  refine ⟨?_, ?_, ?_, ?_⟩
  · intro h
    simp [matrixWidth, h]
  · intro h1 h2
    rw [matrixWidth, if_neg (by omega), if_pos h2]
  · intro h1 h2
    rw [matrixWidth, if_neg (by omega), if_neg (by omega)]
  · intro h64
    constructor
    · simp only [compose_struct_matrix, List.mem_append]
      left
      rw [if_pos h64]
      simp
    · simp only [compose_struct_matrix]
      rw [procStructs_testBit scan fill b _ 0 _ v ?_]
      · exact Nat.zero_testBit b
      · intro j hj hjb
        rw [List.length_take] at hj
        have heff : (if 64 < rts.structNum then 64 else rts.structNum) = 64 := by
          rw [if_pos h64]
        rw [heff] at hj
        omega

/-- Witness for C6: the 70-structure set; width selection facts and
the capped volume with bit 64 clear everywhere. -/
theorem claim_C6_witness :
    64 ≤ 64 ∧
      ((rts70.structNum ≤ 16 → matrixWidth rts70.structNum = 16) ∧
        (16 < rts70.structNum → rts70.structNum ≤ 32 → matrixWidth rts70.structNum = 32) ∧
        (32 < rts70.structNum → rts70.structNum ≤ 64 → matrixWidth rts70.structNum = 64) ∧
        (64 < rts70.structNum →
          Diag.capOverflow ∈ (compose_struct_matrix scanC3 rts70 fill0).2 ∧
            Nat.testBit ((compose_struct_matrix scanC3 rts70 fill0).1 (0, 0, 0)) 64 = false)) :=
  ⟨by omega, claim_C6 scanC3 fill0 rts70 (0, 0, 0) 64 (by omega)⟩

/-- On a discrepant slice the loop stops: everything after the slice
is irrelevant to the result. -/
theorem procSlices_far_truncates (scan : Scan) (fill : Fill) (i : ℕ)
    (far : SliceData) (hfar : classifySlice scan far = SliceCase.far) :
    ∀ (pre rest : List SliceData) (m : Mat) (w1 w2 : Bool),
      procSlices scan fill i (pre ++ far :: rest) m w1 w2 =
        procSlices scan fill i (pre ++ [far]) m w1 w2 := by
  intro pre
  induction pre with
  | nil =>
    intro rest m w1 w2
    simp only [List.nil_append, procSlices, hfar]
  | cons sl pre ih =>
    intro rest m w1 w2
    cases hc : classifySlice scan sl <;>
      simp only [List.cons_append, procSlices, hc] <;> apply ih

/-- A slice loop that contains a discrepant slice always reports the
break flag. -/
theorem procSlices_far_breaks (scan : Scan) (fill : Fill) (i : ℕ)
    (far : SliceData) (hfar : classifySlice scan far = SliceCase.far) :
    ∀ (pre rest : List SliceData) (m : Mat) (w1 w2 : Bool),
      (procSlices scan fill i (pre ++ far :: rest) m w1 w2).2.2.2 = true := by
  intro pre
  induction pre with
  | nil =>
    intro rest m w1 w2
    simp only [List.nil_append, procSlices, hfar]
  | cons sl pre ih =>
    intro rest m w1 w2
    cases hc : classifySlice scan sl <;>
      simp only [List.cons_append, procSlices, hc] <;> first | rfl | apply ih

/-- Claim C3, corrected.  A slice whose through-plane position is
neither an exact hit nor inside the tolerance band triggers the
discrepancy diagnostic (break flag), but it does **not** merely skip
that slice: the `break` abandons all remaining slices of the same
structure — the result is the same as if the slice list ended at the
discrepant slice.  (Subsequent structures are still processed by the
outer loop.) -/
theorem claim_C3 (scan : Scan) (fill : Fill) (i : ℕ) (pre rest : List SliceData)
    (far : SliceData) (hfar : classifySlice scan far = SliceCase.far)
    (m : Mat) (w1 w2 : Bool) :
    procSlices scan fill i (pre ++ far :: rest) m w1 w2 =
        procSlices scan fill i (pre ++ [far]) m w1 w2 ∧
      (procSlices scan fill i (pre ++ far :: rest) m w1 w2).2.2.2 = true :=
  ⟨procSlices_far_truncates scan fill i far hfar pre rest m w1 w2,
    procSlices_far_breaks scan fill i far hfar pre rest m w1 w2⟩

/-- Witness for C3: the concrete discrepant slice at `y = 1/2` between
two valid slices on the 1×3×1 scan. -/
theorem claim_C3_witness :
    classifySlice scanC3 (sliceAtY (1 / 2)) = SliceCase.far ∧
      (procSlices scanC3 fill0 0
            ([sliceAtY 0] ++ sliceAtY (1 / 2) :: [sliceAtY 2]) (fun _ => 0) false false =
          procSlices scanC3 fill0 0 ([sliceAtY 0] ++ [sliceAtY (1 / 2)]) (fun _ => 0) false false ∧
        (procSlices scanC3 fill0 0
            ([sliceAtY 0] ++ sliceAtY (1 / 2) :: [sliceAtY 2]) (fun _ => 0) false false).2.2.2 = true) :=
  ⟨by decide!,
    claim_C3 scanC3 fill0 0 [sliceAtY 0] [sliceAtY 2] (sliceAtY (1 / 2))
      (by decide!) (fun _ => 0) false false⟩

/-- Counterexample to C3 as stated: with the discrepant middle slice
present, the valid slice at `y = 2` is never rasterized (the voxel it
would set stays 0); removing the discrepant slice, the same valid
slice does set its voxel.  So processing does not continue with the
structure's remaining slices. -/
theorem claim_C3_counterexample :
    classifySlice scanC3 (sliceAtY (1 / 2)) = SliceCase.far ∧
      (compose_struct_matrix scanC3 rtsWithFar fill0).1 (0, 2, 0) = 0 ∧
      (compose_struct_matrix scanC3 rtsNoFar fill0).1 (0, 2, 0) = 1 := by
  refine ⟨by decide!, by decide!, by decide!⟩

/-! ## Theorems: the rasterizer marks boundaries only (claim C4) -/

/-- Claim C4, corrected (amended form).  The Contour Rasterizer
(`resample_contour_slices`) performs no polygon fill: for the concrete
convex square contour `sqSlice` — a slice group with more than two
points, all valid on the unit-spacing 8×3×8 grid — the set voxels are
exactly the 19 discretised boundary points of the upsampled polyline
(`ring19`); interior voxels are left unset.  Filled polygons are
produced only by `compose_struct_matrix`'s own rasterization path. -/
theorem claim_C4 : ∀ v ∈ gridVox ⟨8, 3, 8⟩,
    (resampleMask (resample_contour_slices [sqSlice] ct8) v = true ↔ v ∈ ring19) := by
  decide!

/-- Witness for C4 at the boundary voxel `(0,1,0)`. -/
theorem claim_C4_witness :
    (0, 1, 0) ∈ gridVox ⟨8, 3, 8⟩ ∧
      (resampleMask (resample_contour_slices [sqSlice] ct8) (0, 1, 0) = true ↔
        (0, 1, 0) ∈ ring19) :=
  ⟨by decide, claim_C4 (0, 1, 0) (by decide)⟩

/-- Counterexample to C4 as stated: the square's interior voxel
`(3,1,3)` lies three voxels away from every edge — well beyond the
±1-boundary-voxel slack — yet the rasterizer leaves it unset, so the
enclosed polygon is not filled. -/
theorem claim_C4_counterexample :
    2 < sqSlice.X.length ∧
      (resample_contour_slices [sqSlice] ct8).setFailed = false ∧
      resampleMask (resample_contour_slices [sqSlice] ct8) (3, 1, 3) = false := by
  refine ⟨by decide, by decide!, by decide!⟩

/-! ## Theorems: empty structure input (claim C5) -/

/-- Claim C5, corrected (amended form).  For a structure none of whose
slices has any point, the rasterizer returns without raising: no voxel
is placed (the mask is all-`False` over the full grid shape) and the
bounding box is the degenerate box whose four fields are all 1 (the
1-based first index) — not a zero-valued box. -/
theorem claim_C5 (slices : List SliceData) (ct : Scan) (v : Vox)
    (h : ∀ sl ∈ slices, sl.X = []) :
    resample_contour_slices slices ct = ⟨[], ⟨1, 1, 1, 1⟩, false, false⟩ ∧
      resampleMask (resample_contour_slices slices ct) v = false := by
  have hup : upsampleAll slices = [] := by
    unfold upsampleAll
    rw [List.filter_eq_nil_iff.mpr ?_]
    · rfl
    · intro sl hsl
      simp [h sl hsl]
  have hres : resample_contour_slices slices ct = ⟨[], ⟨1, 1, 1, 1⟩, false, false⟩ := by
    unfold resample_contour_slices
    rw [hup]
    rfl
  rw [hres]
  exact ⟨rfl, rfl⟩

/-- Witness for C5: one slice with empty coordinate vectors. -/
theorem claim_C5_witness :
    (∀ sl ∈ [(⟨[], [], []⟩ : SliceData)], sl.X = []) ∧
      (resample_contour_slices [⟨[], [], []⟩] ct8 = ⟨[], ⟨1, 1, 1, 1⟩, false, false⟩ ∧
        resampleMask (resample_contour_slices [⟨[], [], []⟩] ct8) (0, 0, 0) = false) :=
  ⟨by decide, claim_C5 [⟨[], [], []⟩] ct8 (0, 0, 0) (by decide)⟩

/-- Counterexample to C5 as stated: the bounding box returned for an
empty structure is not zero-valued — its `minX` field is 1. -/
theorem claim_C5_counterexample :
    (resample_contour_slices [⟨[], [], []⟩] ct8).placed = [] ∧
      (resample_contour_slices [⟨[], [], []⟩] ct8).minmax.minX = 1 ∧
      (resample_contour_slices [⟨[], [], []⟩] ct8).minmax.minX ≠ 0 := by
  refine ⟨rfl, rfl, by decide⟩

end PyAPL
